import Mathlib

/-!
Shallow embedding of the QR rendering engine in src/lib/index.tsx
(react QR generator component).  Pixel arithmetic is embedded over ℚ;
JavaScript Math.round / Math.ceil / Math.floor become jsRound / jsCeil /
jsFloor.  Canvas 2D context calls become an explicit command list
(DrawCmd); trigonometric vertices of the polygon styles are recorded as
polar commands carrying the exact center, radius and angle (as a
multiple of pi) that the source passes to Math.cos / Math.sin.
-/

namespace QRGen

/-- Models JavaScript Math.round on the rational embedding of doubles:
round half up, returned as a rational that is integer valued. -/
def jsRound (x : ℚ) : ℚ := ((⌊x + 1/2⌋ : ℤ) : ℚ)

/-- Models JavaScript Math.ceil. -/
def jsCeil (x : ℚ) : ℚ := ((⌈x⌉ : ℤ) : ℚ)

/-- Models JavaScript Math.floor. -/
def jsFloor (x : ℚ) : ℚ := ((⌊x⌋ : ℤ) : ℚ)

/-- The ICoordinates interface of the source: a row/col pair.  Fields are
integers because positioningZones stores length - 7, which the source
computes before any bounds check. -/
structure Coordinates where
  row : ℤ
  col : ℤ
deriving DecidableEq, Repr

/-- The encoder collaborator as the renderer sees it: getModuleCount()
and isDark(row, col).  The renderer treats it as opaque, so the
embedding quantifies over an arbitrary square grid. -/
structure QRData where
  length : ℕ
  isDark : ℕ → ℕ → Bool

/-- A fully dark module grid, used to evaluate the renderer at concrete
inputs. -/
def allDark (n : ℕ) : QRData := ⟨n, fun _ _ => true⟩

/-- Translation of isInPositioninZone (src/lib/index.tsx lines 254-262).
The source signature is (col, row, zones); every call site passes
(row, col) positionally, which the theorems reproduce verbatim.  Note
the inclusive upper bounds zone.row + 7 and zone.col + 7. -/
def isInPositioninZone (col row : ℤ) (zones : List Coordinates) : Bool :=
  zones.any fun zone =>
    decide (zone.row ≤ row ∧ row ≤ zone.row + 7 ∧ zone.col ≤ col ∧ col ≤ zone.col + 7)

/-- The three positioning zones computed in update() (lines 366-370). -/
def positioningZones (length : ℤ) : List Coordinates :=
  [⟨0, 0⟩, ⟨0, length - 7⟩, ⟨length - 7, 0⟩]

/-- Canvas 2D context operations issued by the renderer, in issue order.
Angles of arc and ellipse are stored as multiples of pi (the source
passes 0 and 2 * Math.PI).  polarMoveTo / polarLineTo record a vertex at
(cx + r * cos(aOverPi * pi), cy + (if negSin then -1 else 1) * r *
sin(aOverPi * pi)), exactly the expression the polygon and star branches
hand to the context. -/
inductive DrawCmd where
  | setLineWidth (w : ℚ)
  | setFillStyle (color : String)
  | setStrokeStyle (color : String)
  | setGlobalAlpha (a : ℚ)
  | fillRect (x y w h : ℚ)
  | beginPath
  | closePath
  | moveTo (x y : ℚ)
  | lineTo (x y : ℚ)
  | quadraticCurveTo (cpx cpy x y : ℚ)
  | bezierCurveTo (c1x c1y c2x c2y x y : ℚ)
  | arc (x y r startOverPi endOverPi : ℚ) (anticlockwise : Bool)
  | polarMoveTo (cx cy r aOverPi : ℚ) (negSin : Bool)
  | polarLineTo (cx cy r aOverPi : ℚ) (negSin : Bool)
  | ellipse (cx cy rx ry rotOverPi startOverPi endOverPi : ℚ)
  | drawImage (dx dy dw dh : ℚ)
  | stroke
  | fill
  | save
  | restore
deriving DecidableEq, Repr

/-! ## Module renderer: the nine style branches of update() (lines 372-668) -/

/-- Path commands of one heart (hearts branch, lines 387-406). -/
def heartsShape (centerX centerY radius : ℚ) : List DrawCmd :=
  [DrawCmd.beginPath,
   DrawCmd.moveTo centerX (centerY + radius),
   DrawCmd.bezierCurveTo (centerX + radius) (centerY + radius / (3/2))
     (centerX + radius * 2) (centerY - radius / 3) centerX (centerY - radius * 2),
   DrawCmd.bezierCurveTo (centerX - radius * 2) (centerY - radius / 3)
     (centerX - radius) (centerY + radius / (3/2)) centerX (centerY + radius),
   DrawCmd.closePath,
   DrawCmd.fill]

/-- Path commands of one star (stars branch, lines 427-439): ten vertices
alternating outer and inner radius at angle i * pi / 5, with the y term
subtracted (centerY - radius * sin). -/
def starsShape (centerX centerY outerRadius innerRadius : ℚ) : List DrawCmd :=
  DrawCmd.beginPath ::
  ((List.range (2 * 5)).map fun i =>
    let radius := if i % 2 = 0 then outerRadius else innerRadius
    if i = 0 then DrawCmd.polarMoveTo centerX centerY radius ((i : ℚ) / 5) true
    else DrawCmd.polarLineTo centerX centerY radius ((i : ℚ) / 5) true)
  ++ [DrawCmd.closePath, DrawCmd.fill]

/-- Path commands of one diamond (diamonds branch, lines 457-463). -/
def diamondsShape (centerX centerY halfCellSize : ℚ) : List DrawCmd :=
  [DrawCmd.beginPath,
   DrawCmd.moveTo centerX (centerY - halfCellSize),
   DrawCmd.lineTo (centerX + halfCellSize) centerY,
   DrawCmd.lineTo centerX (centerY + halfCellSize),
   DrawCmd.lineTo (centerX - halfCellSize) centerY,
   DrawCmd.closePath,
   DrawCmd.fill]

/-- Path commands of one regular polygon with numSides vertices at angle
i * (2 pi / numSides) (octagons, pentagons and triangles branches, whose
loops are identical up to numSides; lines 483-493, 515-525, 546-556). -/
def polygonShape (centerX centerY radius : ℚ) (numSides : ℕ) : List DrawCmd :=
  DrawCmd.beginPath ::
  ((List.range numSides).map fun i =>
    if i = 0 then DrawCmd.polarMoveTo centerX centerY radius ((2 * i : ℚ) / numSides) false
    else DrawCmd.polarLineTo centerX centerY radius ((2 * i : ℚ) / numSides) false)
  ++ [DrawCmd.closePath, DrawCmd.fill]

/-- Path commands of one dot (dots branch, lines 572-582). -/
def dotsShape (centerX centerY radius : ℚ) : List DrawCmd :=
  [DrawCmd.beginPath,
   DrawCmd.arc centerX centerY (radius / 100 * 75) 0 2 false,
   DrawCmd.closePath,
   DrawCmd.fill]

/-- Path commands of one fluid blob cell (fluid branch, lines 610-641):
each corner is a quadratic curve when both of its edge neighbors are
light, a sharp vertex otherwise. -/
def fluidShape (x y w h radius : ℚ) (isDarkUp isDarkDown isDarkLeft isDarkRight : Bool) :
    List DrawCmd :=
  [DrawCmd.beginPath]
  ++ (if !isDarkUp && !isDarkLeft then [DrawCmd.moveTo (x + radius) y]
      else [DrawCmd.moveTo x y])
  ++ (if !isDarkUp && !isDarkRight then
        [DrawCmd.lineTo (x + w - radius) y,
         DrawCmd.quadraticCurveTo (x + w) y (x + w) (y + radius)]
      else [DrawCmd.lineTo (x + w) y])
  ++ (if !isDarkRight && !isDarkDown then
        [DrawCmd.lineTo (x + w) (y + h - radius),
         DrawCmd.quadraticCurveTo (x + w) (y + h) (x + w - radius) (y + h)]
      else [DrawCmd.lineTo (x + w) (y + h)])
  ++ (if !isDarkDown && !isDarkLeft then
        [DrawCmd.lineTo (x + radius) (y + h),
         DrawCmd.quadraticCurveTo x (y + h) x (y + h - radius)]
      else [DrawCmd.lineTo x (y + h)])
  ++ (if !isDarkLeft && !isDarkUp then
        [DrawCmd.lineTo x (y + radius),
         DrawCmd.quadraticCurveTo x y (x + radius) y]
      else [DrawCmd.lineTo x y])
  ++ [DrawCmd.closePath, DrawCmd.fill]

/-- Commands issued for one grid cell by the hearts branch.  Every branch
guards on isDark && !isInPositioninZone; the (row, col) argument order of
the isInPositioninZone call is the source call-site order. -/
def heartsCell (qr : QRData) (cellSize offset : ℚ) (zones : List Coordinates)
    (row col : ℕ) : List DrawCmd :=
  if qr.isDark row col && !(isInPositioninZone (row : ℤ) (col : ℤ) zones) then
    heartsShape (jsRound ((col : ℚ) * cellSize) + cellSize / 2 + offset)
      (jsRound ((row : ℚ) * cellSize) + cellSize / 2 + offset) (cellSize / 4)
  else []

/-- Commands issued for one grid cell by the stars branch. -/
def starsCell (qr : QRData) (cellSize offset : ℚ) (zones : List Coordinates)
    (row col : ℕ) : List DrawCmd :=
  if qr.isDark row col && !(isInPositioninZone (row : ℤ) (col : ℤ) zones) then
    starsShape (jsRound ((col : ℚ) * cellSize) + cellSize / 2 + offset)
      (jsRound ((row : ℚ) * cellSize) + cellSize / 2 + offset)
      (cellSize / 2) (cellSize / 2 / 2)
  else []

/-- Commands issued for one grid cell by the diamonds branch. -/
def diamondsCell (qr : QRData) (cellSize offset : ℚ) (zones : List Coordinates)
    (row col : ℕ) : List DrawCmd :=
  if qr.isDark row col && !(isInPositioninZone (row : ℤ) (col : ℤ) zones) then
    diamondsShape (jsRound ((col : ℚ) * cellSize) + cellSize / 2 + offset)
      (jsRound ((row : ℚ) * cellSize) + cellSize / 2 + offset) (cellSize / 2)
  else []

/-- Commands issued for one grid cell by the octagons branch. -/
def octagonsCell (qr : QRData) (cellSize offset : ℚ) (zones : List Coordinates)
    (row col : ℕ) : List DrawCmd :=
  if qr.isDark row col && !(isInPositioninZone (row : ℤ) (col : ℤ) zones) then
    polygonShape (jsRound ((col : ℚ) * cellSize) + cellSize / 2 + offset)
      (jsRound ((row : ℚ) * cellSize) + cellSize / 2 + offset) (cellSize / 2) 8
  else []

/-- Commands issued for one grid cell by the pentagons branch. -/
def pentagonsCell (qr : QRData) (cellSize offset : ℚ) (zones : List Coordinates)
    (row col : ℕ) : List DrawCmd :=
  if qr.isDark row col && !(isInPositioninZone (row : ℤ) (col : ℤ) zones) then
    polygonShape (jsRound ((col : ℚ) * cellSize) + cellSize / 2 + offset)
      (jsRound ((row : ℚ) * cellSize) + cellSize / 2 + offset) (cellSize / 2) 5
  else []

/-- Commands issued for one grid cell by the triangles branch. -/
def trianglesCell (qr : QRData) (cellSize offset : ℚ) (zones : List Coordinates)
    (row col : ℕ) : List DrawCmd :=
  if qr.isDark row col && !(isInPositioninZone (row : ℤ) (col : ℤ) zones) then
    polygonShape (jsRound ((col : ℚ) * cellSize) + cellSize / 2 + offset)
      (jsRound ((row : ℚ) * cellSize) + cellSize / 2 + offset) (cellSize / 2) 3
  else []

/-- Commands issued for one grid cell by the dots branch.  The source
writes the center as Math.round(col * cellSize) + radius + offset with
radius = cellSize / 2. -/
def dotsCell (qr : QRData) (cellSize offset : ℚ) (zones : List Coordinates)
    (row col : ℕ) : List DrawCmd :=
  if qr.isDark row col && !(isInPositioninZone (row : ℤ) (col : ℤ) zones) then
    dotsShape (jsRound ((col : ℚ) * cellSize) + cellSize / 2 + offset)
      (jsRound ((row : ℚ) * cellSize) + cellSize / 2 + offset) (cellSize / 2)
  else []

/-- Commands issued for one grid cell by the fluid branch: the
fillStyle assignment sits inside the loop, the neighbor probes clamp at
the grid border exactly as the source conditions row > 0,
row < length - 1, col > 0, col < length - 1 do. -/
def fluidCell (qr : QRData) (cellSize offset : ℚ) (fg : String)
    (zones : List Coordinates) (row col : ℕ) : List DrawCmd :=
  if qr.isDark row col && !(isInPositioninZone (row : ℤ) (col : ℤ) zones) then
    let radius := cellSize / (3/2)
    let x := jsRound ((col : ℚ) * cellSize) + offset
    let y := jsRound ((row : ℚ) * cellSize) + offset
    let w := jsCeil (((col : ℚ) + 1) * cellSize) - jsFloor ((col : ℚ) * cellSize)
    let h := jsCeil (((row : ℚ) + 1) * cellSize) - jsFloor ((row : ℚ) * cellSize)
    let isDarkUp := decide (row > 0) && qr.isDark (row - 1) col
    let isDarkDown := decide (row < qr.length - 1) && qr.isDark (row + 1) col
    let isDarkLeft := decide (col > 0) && qr.isDark row (col - 1)
    let isDarkRight := decide (col < qr.length - 1) && qr.isDark row (col + 1)
    DrawCmd.setFillStyle fg :: fluidShape x y w h radius isDarkUp isDarkDown isDarkLeft isDarkRight
  else []

/-- Commands issued for one grid cell by the default squares branch
(lines 648-667). -/
def squaresCell (qr : QRData) (cellSize offset : ℚ) (fg : String)
    (zones : List Coordinates) (row col : ℕ) : List DrawCmd :=
  if qr.isDark row col && !(isInPositioninZone (row : ℤ) (col : ℤ) zones) then
    [DrawCmd.setFillStyle fg,
     DrawCmd.fillRect (jsRound ((col : ℚ) * cellSize) + offset)
       (jsRound ((row : ℚ) * cellSize) + offset)
       (jsCeil (((col : ℚ) + 1) * cellSize) - jsFloor ((col : ℚ) * cellSize))
       (jsCeil (((row : ℚ) + 1) * cellSize) - jsFloor ((row : ℚ) * cellSize))]
  else []

/-- Per-cell dispatch of the style chain in update(): the if/else
cascade comparing qrStyle against each style tag, with the default
squares branch as the final else. -/
def moduleCellCmds (qrStyle : Option String) (qr : QRData) (cellSize offset : ℚ)
    (fg : String) (zones : List Coordinates) (row col : ℕ) : List DrawCmd :=
  if qrStyle = some "hearts" then heartsCell qr cellSize offset zones row col
  else if qrStyle = some "stars" then starsCell qr cellSize offset zones row col
  else if qrStyle = some "diamonds" then diamondsCell qr cellSize offset zones row col
  else if qrStyle = some "octagons" then octagonsCell qr cellSize offset zones row col
  else if qrStyle = some "pentagons" then pentagonsCell qr cellSize offset zones row col
  else if qrStyle = some "triangles" then trianglesCell qr cellSize offset zones row col
  else if qrStyle = some "dots" then dotsCell qr cellSize offset zones row col
  else if qrStyle = some "fluid" then fluidCell qr cellSize offset fg zones row col
  else squaresCell qr cellSize offset fg zones row col

/-- Row-major iteration of the nested for loops over the module grid. -/
def forCells (length : ℕ) (f : ℕ → ℕ → List DrawCmd) : List DrawCmd :=
  (List.range length).flatMap fun row => (List.range length).flatMap fun col => f row col

/-- Commands issued before the cell loop of a style branch: the hearts,
stars, diamonds, octagons, pentagons, triangles and dots branches each
set fillStyle = fgColor once before their loop; the fluid and squares
branches set it per cell instead. -/
def moduleLead (qrStyle : Option String) (fg : String) : List DrawCmd :=
  if qrStyle = some "fluid" then []
  else if qrStyle = some "hearts" ∨ qrStyle = some "stars" ∨ qrStyle = some "diamonds" ∨
      qrStyle = some "octagons" ∨ qrStyle = some "pentagons" ∨ qrStyle = some "triangles" ∨
      qrStyle = some "dots" then [DrawCmd.setFillStyle fg]
  else []

/-- The whole module-painting section of update(). -/
def moduleSection (qrStyle : Option String) (qr : QRData) (cellSize offset : ℚ)
    (fg : String) (zones : List Coordinates) : List DrawCmd :=
  moduleLead qrStyle fg ++ forCells qr.length (moduleCellCmds qrStyle qr cellSize offset fg zones)

/-! ## Rounded square primitive (drawRoundedSquare, lines 120-183) -/

/-- The radii argument accepted by drawRoundedSquare: a scalar or a
JavaScript array of numbers (the source does not restrict the length). -/
inductive RadiiArg where
  | num (q : ℚ)
  | arr (l : List ℚ)
deriving DecidableEq, Repr

/-- Normalization step of drawRoundedSquare: a scalar radius becomes a
four element array; an array passes through unchanged. -/
def normRadii : RadiiArg → List ℚ
  | RadiiArg.num r => [r, r, r, r]
  | RadiiArg.arr l => l

/-- The per-entry clamp of drawRoundedSquare (lines 144-147): first
min with size / 2, then negatives to 0, where size has already been
shrunk by the line width. -/
def clampRadius (size r : ℚ) : ℚ :=
  let r2 := min r (size / 2)
  if r2 < 0 then 0 else r2

/-- Models the JavaScript expression radii[k] || 0 on the clamped array:
a missing entry or a zero entry gives 0. -/
def jsIdx (l : List ℚ) (k : ℕ) : ℚ :=
  match l.get? k with
  | some v => if v == 0 then 0 else v
  | none => 0

/-- The four effective corner radii of drawRoundedSquare in source order
(top-left, top-right, bottom-right, bottom-left), after the inward
shift by the line width, normalization, the clamp and the || 0 reads. -/
def effectiveRadii (lineWidth size : ℚ) (radii : RadiiArg) : ℚ × ℚ × ℚ × ℚ :=
  let c := (normRadii radii).map (clampRadius (size - lineWidth))
  (jsIdx c 0, jsIdx c 1, jsIdx c 2, jsIdx c 3)

/-- Full translation of drawRoundedSquare: style assignments, the
stroke-alignment shift of x, y and size, the clamped radii, the path
with a quadratic curve at each nonzero corner radius, the stroke and the
optional fill. -/
def drawRoundedSquare (lineWidth x y size : ℚ) (color : String) (radii : RadiiArg)
    (fill : Bool) : List DrawCmd :=
  let (rTopLeft, rTopRight, rBottomRight, rBottomLeft) := effectiveRadii lineWidth size radii
  let y := y + lineWidth / 2
  let x := x + lineWidth / 2
  let size := size - lineWidth
  [DrawCmd.setLineWidth lineWidth, DrawCmd.setFillStyle color, DrawCmd.setStrokeStyle color,
   DrawCmd.beginPath,
   DrawCmd.moveTo (x + rTopLeft) y,
   DrawCmd.lineTo (x + size - rTopRight) y]
  ++ (if rTopRight ≠ 0 then
        [DrawCmd.quadraticCurveTo (x + size) y (x + size) (y + rTopRight)] else [])
  ++ [DrawCmd.lineTo (x + size) (y + size - rBottomRight)]
  ++ (if rBottomRight ≠ 0 then
        [DrawCmd.quadraticCurveTo (x + size) (y + size) (x + size - rBottomRight) (y + size)]
      else [])
  ++ [DrawCmd.lineTo (x + rBottomLeft) (y + size)]
  ++ (if rBottomLeft ≠ 0 then
        [DrawCmd.quadraticCurveTo x (y + size) x (y + size - rBottomLeft)] else [])
  ++ [DrawCmd.lineTo x (y + rTopLeft)]
  ++ (if rTopLeft ≠ 0 then
        [DrawCmd.quadraticCurveTo x y (x + rTopLeft) y] else [])
  ++ [DrawCmd.closePath, DrawCmd.stroke]
  ++ (if fill then [DrawCmd.fill] else [])

/-! ## Eye renderer (drawPositioningPattern, lines 188-249) -/

/-- The inner/outer eye color object of the props surface. -/
structure InnerOuterEyeColor where
  inner : String
  outer : String
deriving DecidableEq, Repr

/-- One eye color value: a plain string or an {inner, outer} object. -/
inductive EyeColor where
  | str (s : String)
  | mix (c : InnerOuterEyeColor)
deriving DecidableEq, Repr

/-- The eyeColor prop: a single EyeColor applied to all three eyes, or a
three entry array whose entries may be left undefined in JavaScript
(hence Option). -/
inductive EyeColorProp where
  | single (c : EyeColor)
  | triple (a b c : Option EyeColor)
deriving DecidableEq, Repr

/-- One eye radii value of the props surface: scalar, array, or an
{inner, outer} object whose parts are themselves scalar or array. -/
inductive CornerRadii where
  | num (q : ℚ)
  | arr (l : List ℚ)
  | inout (inner outer : RadiiArg)
deriving DecidableEq, Repr

/-- The eyeRadius prop: one CornerRadii for all eyes or a three entry
array (entries possibly undefined in JavaScript). -/
inductive EyeRadiusProp where
  | single (c : CornerRadii)
  | triple (a b c : Option CornerRadii)
deriving DecidableEq, Repr

/-- One call to drawRoundedSquare as issued by drawPositioningPattern,
with the exact argument values. -/
structure RSquareCall where
  lineWidth : ℚ
  x : ℚ
  y : ℚ
  size : ℚ
  color : String
  radii : RadiiArg
  fill : Bool
deriving DecidableEq, Repr

/-- Commands of one recorded drawRoundedSquare call. -/
def rsCallCmds (c : RSquareCall) : List DrawCmd :=
  drawRoundedSquare c.lineWidth c.x c.y c.size c.color c.radii c.fill

/-- The radii split of drawPositioningPattern (lines 199-207): an
object yields (outer || 0, inner || 0); a number or array is used for
both rings.  On numbers the JavaScript || 0 maps 0 to 0 and is the
identity otherwise; arrays are always truthy. -/
def jsOrRadiiArg (r : RadiiArg) : RadiiArg :=
  match r with
  | RadiiArg.num n => if n == 0 then RadiiArg.num 0 else RadiiArg.num n
  | RadiiArg.arr l => RadiiArg.arr l

/-- Outer and inner radii resolved by drawPositioningPattern. -/
def splitRadii : CornerRadii → RadiiArg × RadiiArg
  | CornerRadii.inout inner outer => (jsOrRadiiArg outer, jsOrRadiiArg inner)
  | CornerRadii.num n => (RadiiArg.num n, RadiiArg.num n)
  | CornerRadii.arr l => (RadiiArg.arr l, RadiiArg.arr l)

/-- The color split of drawPositioningPattern (lines 209-217).  A
non-string color takes the color.outer / color.inner branch; when the
color is the JavaScript value undefined that property access throws a
TypeError, modelled as the error case. -/
def splitEyeColor : Option EyeColor → Except String (String × String)
  | some (EyeColor.str s) => Except.ok (s, s)
  | some (EyeColor.mix c) => Except.ok (c.outer, c.inner)
  | none => Except.error "TypeError: cannot read properties of undefined"

/-- Translation of drawPositioningPattern as the list of its two
drawRoundedSquare calls: the outer 7-cell stroke-only box at the zone
origin, then the inner filled 3-cell box inset by 2 cells on both axes,
both with line width ceil(cellSize). -/
def drawPositioningPattern (cellSize offset : ℚ) (row col : ℤ)
    (color : Option EyeColor) (radii : CornerRadii) :
    Except String (List RSquareCall) :=
  let lineWidth := jsCeil cellSize
  let (radiiOuter, radiiInner) := splitRadii radii
  match splitEyeColor color with
  | Except.error e => Except.error e
  | Except.ok (colorOuter, colorInner) =>
    let y := (row : ℚ) * cellSize + offset
    let x := (col : ℚ) * cellSize + offset
    Except.ok
      [⟨lineWidth, x, y, cellSize * 7, colorOuter, radiiOuter, false⟩,
       ⟨lineWidth, x + cellSize * 2, y + cellSize * 2, cellSize * 3, colorInner, radiiInner, true⟩]

/-- Truthiness of an eyeColor prop value under the JavaScript test
!eyeColor in update(): undefined and the empty string are falsy; arrays
and objects are truthy. -/
def eyeColorFalsy : Option EyeColorProp → Bool
  | none => true
  | some (EyeColorProp.single (EyeColor.str s)) => s == ""
  | some _ => false

/-- The per-eye color resolution of update() (lines 684-694): a falsy
eyeColor defaults to fgColor, an array is indexed at the eye index
(possibly yielding undefined), anything else applies to every eye. -/
def resolveEyeColor (ec : Option EyeColorProp) (fg : String) (i : Fin 3) : Option EyeColor :=
  if eyeColorFalsy ec then some (EyeColor.str fg)
  else
    match ec with
    | none => some (EyeColor.str fg)
    | some (EyeColorProp.single c) => some c
    | some (EyeColorProp.triple a b c) =>
      match i with
      | 0 => a
      | 1 => b
      | 2 => c

/-- The per-eye radii resolution of update() (lines 674-682): an array
prop is indexed at the eye index (a four-number CornerRadii is itself an
array in JavaScript, so it too is indexed, a missing index falling back
to the [0,0,0,0] default parameter of drawPositioningPattern); a
resulting number n becomes [n, n, n, n]. -/
def resolveEyeRadius (er : Option EyeRadiusProp) (i : Fin 3) : CornerRadii :=
  match er with
  | none => CornerRadii.arr [0, 0, 0, 0]
  | some (EyeRadiusProp.single (CornerRadii.num n)) => CornerRadii.arr [n, n, n, n]
  | some (EyeRadiusProp.single (CornerRadii.arr l)) =>
    match l.get? i.val with
    | some n => CornerRadii.arr [n, n, n, n]
    | none => CornerRadii.arr [0, 0, 0, 0]
  | some (EyeRadiusProp.single (CornerRadii.inout inner outer)) => CornerRadii.inout inner outer
  | some (EyeRadiusProp.triple a b c) =>
    match (match i with | 0 => a | 1 => b | 2 => c) with
    | none => CornerRadii.arr [0, 0, 0, 0]
    | some (CornerRadii.num n) => CornerRadii.arr [n, n, n, n]
    | some r => r

/-! ## Props surface, logo overlay and the synchronous paint of update() -/

/-- The props the render path reads, after the numeric coercions at the
top of update().  Optional numeric logo props stay optional so that the
coercion `prop ? +prop : 0` can be modelled; logoOnLoad records only
whether a callback is present. -/
structure IProps where
  size : ℚ
  quietZone : ℚ
  bgColor : String
  fgColor : String
  logoImage : Option String
  logoWidth : Option ℚ
  logoHeight : Option ℚ
  logoOpacity : ℚ
  logoOnLoad : Bool
  removeQrCodeBehindLogo : Bool
  logoPadding : Option ℚ
  logoPaddingStyle : Option String
  enableCORS : Bool
  eyeRadius : Option EyeRadiusProp
  eyeColor : Option EyeColorProp
  qrStyle : Option String

/-- The coercion `this.props.x ? +this.props.x : 0` applied to the
optional numeric logo props (update lines 343-345): undefined and 0 both
give 0. -/
def jsNumProp : Option ℚ → ℚ
  | none => 0
  | some v => if v == 0 then 0 else v

/-- dWidthLogo of the logo onload handler: logoWidth || size * 0.2. -/
def dWidthLogoOf (p : IProps) : ℚ :=
  let logoWidth := jsNumProp p.logoWidth
  if logoWidth == 0 then p.size * (2/10) else logoWidth

/-- dHeightLogo of the logo onload handler: logoHeight || dWidthLogo. -/
def dHeightLogoOf (p : IProps) : ℚ :=
  let logoHeight := jsNumProp p.logoHeight
  if logoHeight == 0 then dWidthLogoOf p else logoHeight

/-- dxLogo of the logo onload handler: (size - dWidthLogo) / 2. -/
def dxLogoOf (p : IProps) : ℚ := (p.size - dWidthLogoOf p) / 2

/-- dyLogo of the logo onload handler: (size - dHeightLogo) / 2. -/
def dyLogoOf (p : IProps) : ℚ := (p.size - dHeightLogoOf p) / 2

/-- The background-clearing block of the logo onload handler (lines
720-753), entered when removeQrCodeBehindLogo or a nonzero logoPadding
is set: an ellipse when logoPaddingStyle is "circle", a filled rectangle
otherwise, both in bgColor and inflated by the padding. -/
def logoClearCmds (p : IProps) : List DrawCmd :=
  let logoPadding := jsNumProp p.logoPadding
  if p.removeQrCodeBehindLogo || !(logoPadding == 0) then
    let dWidthLogoPadding := dWidthLogoOf p + 2 * logoPadding
    let dHeightLogoPadding := dHeightLogoOf p + 2 * logoPadding
    let dxLogoPadding := dxLogoOf p + p.quietZone - logoPadding
    let dyLogoPadding := dyLogoOf p + p.quietZone - logoPadding
    DrawCmd.beginPath :: DrawCmd.setStrokeStyle p.bgColor :: DrawCmd.setFillStyle p.bgColor ::
    (if p.logoPaddingStyle = some "circle" then
      [DrawCmd.ellipse (dxLogoPadding + dWidthLogoPadding / 2)
         (dyLogoPadding + dHeightLogoPadding / 2)
         (dWidthLogoPadding / 2) (dHeightLogoPadding / 2) 0 0 2,
       DrawCmd.stroke, DrawCmd.fill]
     else
      [DrawCmd.fillRect dxLogoPadding dyLogoPadding dWidthLogoPadding dHeightLogoPadding])
  else []

/-- Commands of the logo onload handler (lines 712-763): save, optional
clearing, global alpha, the image composite at the centered rect shifted
by the quiet zone, restore. -/
def logoOnloadCmds (p : IProps) : List DrawCmd :=
  DrawCmd.save :: logoClearCmds p
  ++ [DrawCmd.setGlobalAlpha p.logoOpacity,
      DrawCmd.drawImage (dxLogoOf p + p.quietZone) (dyLogoOf p + p.quietZone)
        (dWidthLogoOf p) (dHeightLogoOf p),
      DrawCmd.restore]

/-- Translation of the unused occlusion predicate isCoordinateInImage
(lines 271-305).  Nothing in the render path calls it; it is kept to
show the full component surface. -/
def transformPixelLengthIntoNumberOfCells (pixelLength cellSize : ℚ) : ℚ :=
  pixelLength / cellSize

/-- Translation of isCoordinateInImage; a missing or empty logoImage is
falsy and short-circuits to false. -/
def isCoordinateInImage (col row dWidthLogo dHeightLogo dxLogo dyLogo cellSize : ℚ)
    (logoImage : Option String) : Bool :=
  match logoImage with
  | some s =>
    if s == "" then false
    else
      let numberOfCellsMargin : ℚ := 2
      let firstRowOfLogo := transformPixelLengthIntoNumberOfCells dxLogo cellSize
      let firstColumnOfLogo := transformPixelLengthIntoNumberOfCells dyLogo cellSize
      let logoWidthInCells := transformPixelLengthIntoNumberOfCells dWidthLogo cellSize - 1
      let logoHeightInCells := transformPixelLengthIntoNumberOfCells dHeightLogo cellSize - 1
      decide (firstRowOfLogo - numberOfCellsMargin ≤ row ∧
        row ≤ firstRowOfLogo + logoWidthInCells + numberOfCellsMargin ∧
        firstColumnOfLogo - numberOfCellsMargin ≤ col ∧
        col ≤ firstColumnOfLogo + logoHeightInCells + numberOfCellsMargin)
  | none => false

/-- The positioning-pattern loop of update() (lines 671-705) over eye
indices 0, 1, 2, accumulating the issued commands; a thrown TypeError
stops the loop and is reported alongside the commands issued so far. -/
def eyeLoopGo (p : IProps) (cellSize offset : ℚ) (zones : List Coordinates) :
    List (Fin 3) → List DrawCmd × Option String
  | [] => ([], none)
  | i :: rest =>
    let zone := zones.getD i.val ⟨0, 0⟩
    let radii := resolveEyeRadius p.eyeRadius i
    let color := resolveEyeColor p.eyeColor p.fgColor i
    match drawPositioningPattern cellSize offset zone.row zone.col color radii with
    | Except.error e => ([], some e)
    | Except.ok calls =>
      let cmds := calls.flatMap rsCallCmds
      let next := eyeLoopGo p cellSize offset zones rest
      (cmds ++ next.1, next.2)

/-- The synchronous paint of update(): background fill, the module
style section, the three positioning patterns.  The coerced logo values
of update() (logoWidth, logoHeight, logoPadding) are captured only by
the asynchronous image onload closure and issue no context call here;
the `if (logoImage)` tail of update() only constructs the Image object.
Returns the issued commands and, when the eye loop throws, the error. -/
def updateSyncPaint (p : IProps) (qr : QRData) : List DrawCmd × Option String :=
  let size := p.size
  let quietZone := p.quietZone
  let length := qr.length
  let cellSize := size / (length : ℚ)
  let canvasSize := size + 2 * quietZone
  let offset := quietZone
  let zones := positioningZones (length : ℤ)
  let eyes := eyeLoopGo p cellSize offset zones [0, 1, 2]
  ([DrawCmd.setFillStyle p.bgColor,
    DrawCmd.fillRect 0 0 canvasSize canvasSize,
    DrawCmd.setStrokeStyle p.fgColor]
   ++ moduleSection p.qrStyle qr cellSize offset p.fgColor zones
   ++ eyes.1, eyes.2)

/-! ## Specification-side definitions used for comparison -/

/-- Follows the specification wording of claim C1: three 7x7 finder
zones anchored at (0,0), (0, N-7) and (N-7, 0); a cell is inside one
when it lies in the 7x7 box starting at the anchor. -/
def specFinderZones7 (n row col : ℕ) : Bool :=
  (decide (row < 7) && decide (col < 7)) ||
  (decide (row < 7) && decide (n - 7 ≤ col) && decide (col < n)) ||
  (decide (n - 7 ≤ row) && decide (row < n) && decide (col < 7))

/-! ## Theorems -/

/-- C1 (amended): for every style and every grid, the per-cell module
renderer issues commands at (row, col) iff the module is dark and
(row, col) lies outside the three exclusion zones tested by
isInPositioninZone.  Those zones are inclusive of index anchor + 7, so
they span 8 cells per axis, one more than the 7x7 finder pattern. -/
theorem c1_module_painted_iff (style : Option String) (qr : QRData) (cellSize offset : ℚ)
    (fg : String) (row col : ℕ) :
    moduleCellCmds style qr cellSize offset fg (positioningZones (qr.length : ℤ)) row col ≠ [] ↔
      (qr.isDark row col = true ∧
       isInPositioninZone (row : ℤ) (col : ℤ) (positioningZones (qr.length : ℤ)) = false) := by
  cases hd : qr.isDark row col <;>
    cases hz : isInPositioninZone (row : ℤ) (col : ℤ) (positioningZones (qr.length : ℤ)) <;>
    simp only [moduleCellCmds, heartsCell, starsCell, diamondsCell, octagonsCell, pentagonsCell,
      trianglesCell, dotsCell, fluidCell, squaresCell, hd, hz] <;>
    simp [ite_self]
  repeat' split
  all_goals simp [heartsShape, starsShape, diamondsShape, polygonShape, dotsShape]

/-- C1 counterexample: on a fully dark version-1 grid (N = 21) the dark
cell (7, 0) lies outside all three 7x7 finder zones of the claim, yet
the module renderer paints nothing there (the code's zone test is
inclusive of index 7). -/
theorem c1_counterexample :
    moduleCellCmds none (allDark 21) (50/7) 10 "#000000" (positioningZones 21) 7 0 = [] ∧
    (allDark 21).isDark 7 0 = true ∧
    specFinderZones7 21 7 0 = false := by
  exact ⟨by decide, rfl, by decide⟩

/-- The seam-avoiding cell extent ceil((i + 1) * cellSize) -
floor(i * cellSize) is positive whenever cellSize is. -/
lemma cellExtent_pos (i : ℕ) (cellSize : ℚ) (h : 0 < cellSize) :
    0 < jsCeil (((i : ℚ) + 1) * cellSize) - jsFloor ((i : ℚ) * cellSize) := by
  unfold jsCeil jsFloor
  rw [show ((i : ℚ) + 1) * cellSize = (i : ℚ) * cellSize + cellSize from by ring]
  have h1 := Int.floor_le ((i : ℚ) * cellSize)
  have h2 := Int.le_ceil ((i : ℚ) * cellSize + cellSize)
  linarith

/-- Corner membership in one fluid blob path: the quadratic curve of a
corner appears iff both neighbors at that corner are light.  Positivity
of the cell extent keeps the four corner control points distinct. -/
lemma fluidShape_corner_mem (x y w h radius : ℚ) (du dd dl dr : Bool)
    (hw : 0 < w) (hh : 0 < h) :
    (DrawCmd.quadraticCurveTo (x + w) y (x + w) (y + radius) ∈
        fluidShape x y w h radius du dd dl dr ↔ du = false ∧ dr = false) ∧
    (DrawCmd.quadraticCurveTo (x + w) (y + h) (x + w - radius) (y + h) ∈
        fluidShape x y w h radius du dd dl dr ↔ dr = false ∧ dd = false) ∧
    (DrawCmd.quadraticCurveTo x (y + h) x (y + h - radius) ∈
        fluidShape x y w h radius du dd dl dr ↔ dd = false ∧ dl = false) ∧
    (DrawCmd.quadraticCurveTo x y (x + radius) y ∈
        fluidShape x y w h radius du dd dl dr ↔ dl = false ∧ du = false) := by
  have ne1 : ¬(x + w = x) := by intro e; linarith
  have ne2 : ¬(x = x + w) := by intro e; linarith
  have ne3 : ¬(y + h = y) := by intro e; linarith
  have ne4 : ¬(y = y + h) := by intro e; linarith
  cases du <;> cases dd <;> cases dl <;> cases dr <;>
    simp [fluidShape, ne1, ne2, ne3, ne4]

/-- The corner-rounding facts claim C2 states about one fluid cell:
each of the four corner quadratic curves (radius cellSize / 1.5) is in
the emitted commands iff both edge neighbors adjacent to that corner are
not dark, neighbors outside the grid counting as light. -/
def fluidCornerSpec (qr : QRData) (cellSize offset : ℚ) (fg : String)
    (zones : List Coordinates) (row col : ℕ) : Prop :=
  (DrawCmd.quadraticCurveTo
      (jsRound ((col : ℚ) * cellSize) + offset +
        (jsCeil (((col : ℚ) + 1) * cellSize) - jsFloor ((col : ℚ) * cellSize)))
      (jsRound ((row : ℚ) * cellSize) + offset)
      (jsRound ((col : ℚ) * cellSize) + offset +
        (jsCeil (((col : ℚ) + 1) * cellSize) - jsFloor ((col : ℚ) * cellSize)))
      (jsRound ((row : ℚ) * cellSize) + offset + cellSize / (3/2)) ∈
      fluidCell qr cellSize offset fg zones row col ↔
    (decide (row > 0) && qr.isDark (row - 1) col) = false ∧
    (decide (col < qr.length - 1) && qr.isDark row (col + 1)) = false) ∧
  (DrawCmd.quadraticCurveTo
      (jsRound ((col : ℚ) * cellSize) + offset +
        (jsCeil (((col : ℚ) + 1) * cellSize) - jsFloor ((col : ℚ) * cellSize)))
      (jsRound ((row : ℚ) * cellSize) + offset +
        (jsCeil (((row : ℚ) + 1) * cellSize) - jsFloor ((row : ℚ) * cellSize)))
      (jsRound ((col : ℚ) * cellSize) + offset +
        (jsCeil (((col : ℚ) + 1) * cellSize) - jsFloor ((col : ℚ) * cellSize)) - cellSize / (3/2))
      (jsRound ((row : ℚ) * cellSize) + offset +
        (jsCeil (((row : ℚ) + 1) * cellSize) - jsFloor ((row : ℚ) * cellSize))) ∈
      fluidCell qr cellSize offset fg zones row col ↔
    (decide (col < qr.length - 1) && qr.isDark row (col + 1)) = false ∧
    (decide (row < qr.length - 1) && qr.isDark (row + 1) col) = false) ∧
  (DrawCmd.quadraticCurveTo
      (jsRound ((col : ℚ) * cellSize) + offset)
      (jsRound ((row : ℚ) * cellSize) + offset +
        (jsCeil (((row : ℚ) + 1) * cellSize) - jsFloor ((row : ℚ) * cellSize)))
      (jsRound ((col : ℚ) * cellSize) + offset)
      (jsRound ((row : ℚ) * cellSize) + offset +
        (jsCeil (((row : ℚ) + 1) * cellSize) - jsFloor ((row : ℚ) * cellSize)) - cellSize / (3/2)) ∈
      fluidCell qr cellSize offset fg zones row col ↔
    (decide (row < qr.length - 1) && qr.isDark (row + 1) col) = false ∧
    (decide (col > 0) && qr.isDark row (col - 1)) = false) ∧
  (DrawCmd.quadraticCurveTo
      (jsRound ((col : ℚ) * cellSize) + offset)
      (jsRound ((row : ℚ) * cellSize) + offset)
      (jsRound ((col : ℚ) * cellSize) + offset + cellSize / (3/2))
      (jsRound ((row : ℚ) * cellSize) + offset) ∈
      fluidCell qr cellSize offset fg zones row col ↔
    (decide (col > 0) && qr.isDark row (col - 1)) = false ∧
    (decide (row > 0) && qr.isDark (row - 1) col) = false)

/-- C2 (confirmed): in the fluid style, for every dark non-excluded
cell, a corner quadratic curve of radius cellSize / 1.5 is emitted iff
both edge neighbors adjacent to that corner are not dark (cells outside
the grid counting as light); otherwise the corner is a sharp vertex.
For an isolated dark cell all four corner curves are present. -/
theorem c2_fluid_corner_rounding (qr : QRData) (cellSize offset : ℚ) (fg : String)
    (zones : List Coordinates) (row col : ℕ)
    (hcs : 0 < cellSize)
    (hdark : qr.isDark row col = true)
    (hzone : isInPositioninZone (row : ℤ) (col : ℤ) zones = false) :
    fluidCornerSpec qr cellSize offset fg zones row col := by
  have hw := cellExtent_pos col cellSize hcs
  have hh := cellExtent_pos row cellSize hcs
  obtain ⟨h1, h2, h3, h4⟩ := fluidShape_corner_mem
    (jsRound ((col : ℚ) * cellSize) + offset)
    (jsRound ((row : ℚ) * cellSize) + offset)
    (jsCeil (((col : ℚ) + 1) * cellSize) - jsFloor ((col : ℚ) * cellSize))
    (jsCeil (((row : ℚ) + 1) * cellSize) - jsFloor ((row : ℚ) * cellSize))
    (cellSize / (3/2))
    (decide (row > 0) && qr.isDark (row - 1) col)
    (decide (row < qr.length - 1) && qr.isDark (row + 1) col)
    (decide (col > 0) && qr.isDark row (col - 1))
    (decide (col < qr.length - 1) && qr.isDark row (col + 1))
    hw hh
  unfold fluidCornerSpec
  simp only [fluidCell, hdark, hzone, Bool.not_false, Bool.and_self, if_true]
  exact ⟨by simp [List.mem_cons, h1], by simp [List.mem_cons, h2],
    by simp [List.mem_cons, h3], by simp [List.mem_cons, h4]⟩

/-- C2 witness: on the all-dark version-1 grid the interior cell (8, 8)
is dark and outside the exclusion zones, and the theorem applies with
cellSize 1. -/
theorem c2_witness :
    (0 : ℚ) < 1 ∧ (allDark 21).isDark 8 8 = true ∧
    isInPositioninZone ((8 : ℕ) : ℤ) ((8 : ℕ) : ℤ) (positioningZones 21) = false ∧
    fluidCornerSpec (allDark 21) 1 0 "#000000" (positioningZones 21) 8 8 :=
  ⟨by norm_num, rfl, by decide,
   c2_fluid_corner_rounding (allDark 21) 1 0 "#000000" (positioningZones 21) 8 8
     (by norm_num) rfl (by decide)⟩

/-- First moveTo command of a path, if any. -/
def firstMoveTo : List DrawCmd → Option (ℚ × ℚ)
  | [] => none
  | DrawCmd.moveTo x y :: _ => some (x, y)
  | _ :: rest => firstMoveTo rest

/-- Center of the first arc command of a path, if any. -/
def firstArcCenter : List DrawCmd → Option (ℚ × ℚ)
  | [] => none
  | DrawCmd.arc x y _ _ _ _ :: _ => some (x, y)
  | _ :: rest => firstArcCenter rest

/-- Center recorded by the first polar vertex command of a path, if
any. -/
def firstPolarCenter : List DrawCmd → Option (ℚ × ℚ)
  | [] => none
  | DrawCmd.polarMoveTo cx cy _ _ _ :: _ => some (cx, cy)
  | _ :: rest => firstPolarCenter rest

/-- Reads the shape center back out of the commands of one painted
cell, per style: the arc center for dots, the polar vertex center for
the polygon and star styles, and the first moveTo undone by the known
start-point offset for hearts (start is center + (0, radius) with
radius = cellSize / 4) and diamonds (start is center - (0, cellSize / 2)). -/
def shapeCenter (style : String) (cellSize : ℚ) (cmds : List DrawCmd) : Option (ℚ × ℚ) :=
  if style = "dots" then firstArcCenter cmds
  else if style = "hearts" then (firstMoveTo cmds).map fun p => (p.1, p.2 - cellSize / 4)
  else if style = "diamonds" then (firstMoveTo cmds).map fun p => (p.1, p.2 + cellSize / 2)
  else if style = "stars" ∨ style = "octagons" ∨ style = "pentagons" ∨ style = "triangles" then
    firstPolarCenter cmds
  else none

/-- C3 (amended): for each non-square shape style, every painted dark
cell has its shape centered at (round(col * cellSize) + cellSize / 2 +
offset, round(row * cellSize) + cellSize / 2 + offset): the source
rounds the cell origin before adding the half cell, rather than using
col * cellSize directly as the claim states. -/
theorem c3_shape_centers (style : String)
    (hstyle : style ∈ ["dots", "hearts", "stars", "diamonds", "octagons", "pentagons", "triangles"])
    (qr : QRData) (cellSize offset : ℚ) (fg : String) (zones : List Coordinates) (row col : ℕ)
    (hdark : qr.isDark row col = true)
    (hzone : isInPositioninZone (row : ℤ) (col : ℤ) zones = false) :
    shapeCenter style cellSize (moduleCellCmds (some style) qr cellSize offset fg zones row col) =
      some (jsRound ((col : ℚ) * cellSize) + cellSize / 2 + offset,
            jsRound ((row : ℚ) * cellSize) + cellSize / 2 + offset) := by
  have hg : (qr.isDark row col && !(isInPositioninZone (row : ℤ) (col : ℤ) zones)) = true := by
    simp [hdark, hzone]
  fin_cases hstyle <;>
    simp [moduleCellCmds, shapeCenter, dotsCell, heartsCell, starsCell, diamondsCell,
      octagonsCell, pentagonsCell, trianglesCell, hg, dotsShape, heartsShape, starsShape,
      diamondsShape, polygonShape, firstArcCenter, firstMoveTo, firstPolarCenter,
      List.range_succ_eq_map]

/-- C3 counterexample: with size 150 and N = 21 (cellSize 50/7), the
dot painted at cell (8, 8) has center 494/7 on each axis, while
col * cellSize + cellSize / 2 + offset is 495/7: the claimed formula
omits the rounding of the cell origin. -/
theorem c3_counterexample :
    shapeCenter "dots" (50/7)
      (moduleCellCmds (some "dots") (allDark 21) (50/7) 10 "#000000" (positioningZones 21) 8 8) ≠
    some ((8 : ℚ) * (50/7) + (50/7) / 2 + 10, (8 : ℚ) * (50/7) + (50/7) / 2 + 10) := by
  have hz : isInPositioninZone (8 : ℤ) (8 : ℤ) (positioningZones 21) = false := by
    decide
  have hg : ((allDark 21).isDark 8 8 &&
      !(isInPositioninZone ((8 : ℕ) : ℤ) ((8 : ℕ) : ℤ) (positioningZones 21))) = true := by
    simp [hz, allDark]
  have hr : jsRound ((8 : ℚ) * (50 / 7)) = 57 := by
    unfold jsRound
    rw [show ((8 : ℚ) * (50 / 7) + 1/2) = 807/14 by norm_num]
    norm_num [Int.floor_eq_iff]
  simp [moduleCellCmds, dotsCell, shapeCenter, dotsShape, firstArcCenter, hg]
  rw [hr]
  norm_num

/-- C3 witness: the amended center formula evaluated for the dots style
at cell (9, 9) of the all-dark version-1 grid with cellSize 1. -/
theorem c3_witness :
    "dots" ∈ ["dots", "hearts", "stars", "diamonds", "octagons", "pentagons", "triangles"] ∧
    (allDark 21).isDark 9 9 = true ∧
    isInPositioninZone ((9 : ℕ) : ℤ) ((9 : ℕ) : ℤ) (positioningZones 21) = false ∧
    shapeCenter "dots" 1
        (moduleCellCmds (some "dots") (allDark 21) 1 0 "#000000" (positioningZones 21) 9 9) =
      some (jsRound (((9 : ℕ) : ℚ) * 1) + 1 / 2 + 0, jsRound (((9 : ℕ) : ℚ) * 1) + 1 / 2 + 0) :=
  ⟨by decide, rfl, by decide,
   c3_shape_centers "dots" (by decide) (allDark 21) 1 0 "#000000" (positioningZones 21) 9 9
     rfl (by decide)⟩

/-- C4 (confirmed): in drawRoundedSquare, for every input radius
(scalar or array), each normalized corner radius after the clamp lies in
[0, size / 2], where size is the square side after subtracting the line
width (the claim presumes this is nonnegative); any negative input
radius clamps to 0. -/
theorem c4_radius_clamp (lineWidth size : ℚ) (radii : RadiiArg)
    (h : lineWidth ≤ size) :
    ∀ r ∈ normRadii radii,
      0 ≤ clampRadius (size - lineWidth) r ∧
      clampRadius (size - lineWidth) r ≤ (size - lineWidth) / 2 ∧
      (r < 0 → clampRadius (size - lineWidth) r = 0) := by
  intro r _
  have hs : 0 ≤ (size - lineWidth) / 2 := by linarith
  simp only [clampRadius]
  by_cases hneg : min r ((size - lineWidth) / 2) < 0
  · rw [if_pos hneg]
    exact ⟨le_refl 0, hs, fun _ => rfl⟩
  · rw [if_neg hneg]
    push_neg at hneg
    refine ⟨hneg, min_le_right _ _, fun hr => ?_⟩
    exact absurd (lt_of_le_of_lt (min_le_left r _) hr) (not_lt.mpr hneg)

/-- C4 witness: line width 2, size 10 (clamped bound 4), radii
[5, -3, 0, 100]. -/
theorem c4_witness :
    (2 : ℚ) ≤ 10 ∧
    ∀ r ∈ normRadii (RadiiArg.arr [5, -3, 0, 100]),
      0 ≤ clampRadius ((10 : ℚ) - 2) r ∧
      clampRadius ((10 : ℚ) - 2) r ≤ ((10 : ℚ) - 2) / 2 ∧
      (r < 0 → clampRadius ((10 : ℚ) - 2) r = 0) :=
  ⟨by norm_num, c4_radius_clamp 2 10 (RadiiArg.arr [5, -3, 0, 100]) (by norm_num)⟩

/-- C5 (confirmed): for any valid eye color, drawPositioningPattern
issues exactly two drawRoundedSquare calls: a stroke-only outer square
of side 7 * cellSize at the zone origin and a filled inner square of
side 3 * cellSize inset by 2 * cellSize on both axes, both with line
width ceil(cellSize), regardless of the eye position. -/
theorem c5_eye_two_calls (cellSize offset : ℚ) (row col : ℤ) (color : EyeColor)
    (radii : CornerRadii) :
    ∃ colorOuter colorInner radiiOuter radiiInner,
      drawPositioningPattern cellSize offset row col (some color) radii =
        Except.ok
          [⟨jsCeil cellSize, (col : ℚ) * cellSize + offset, (row : ℚ) * cellSize + offset,
            cellSize * 7, colorOuter, radiiOuter, false⟩,
           ⟨jsCeil cellSize, (col : ℚ) * cellSize + offset + cellSize * 2,
            (row : ℚ) * cellSize + offset + cellSize * 2, cellSize * 3, colorInner,
            radiiInner, true⟩] := by
  cases color <;> exact ⟨_, _, _, _, rfl⟩

/-- C6 (amended): with eyeColor unset both rings of every eye use
fgColor; a per-eye color resolved to a string colors both rings with it;
a per-eye {inner, outer} pair colors the filled inner 3-cell square with
inner and the stroke-only outer ring with outer.  A three entry eyeColor
array with entries left undefined does not default those eyes to
fgColor: splitting the undefined color throws (see the counterexample),
so coloring eye 0 alone requires explicit entries for eyes 1 and 2. -/
theorem c6_eye_colors (ec : Option EyeColorProp) (fg : String) (i : Fin 3)
    (cellSize offset : ℚ) (row col : ℤ) (radii : CornerRadii) :
    (ec = none →
      ∃ c1 c2, drawPositioningPattern cellSize offset row col (resolveEyeColor ec fg i) radii =
          Except.ok [c1, c2] ∧
        c1.color = fg ∧ c2.color = fg ∧ c1.fill = false ∧ c2.fill = true) ∧
    (∀ s, resolveEyeColor ec fg i = some (EyeColor.str s) →
      ∃ c1 c2, drawPositioningPattern cellSize offset row col (resolveEyeColor ec fg i) radii =
          Except.ok [c1, c2] ∧
        c1.color = s ∧ c2.color = s ∧ c1.fill = false ∧ c2.fill = true) ∧
    (∀ c, resolveEyeColor ec fg i = some (EyeColor.mix c) →
      ∃ c1 c2, drawPositioningPattern cellSize offset row col (resolveEyeColor ec fg i) radii =
          Except.ok [c1, c2] ∧
        c1.color = c.outer ∧ c2.color = c.inner ∧ c1.fill = false ∧ c2.fill = true) := by
  refine ⟨?_, ?_, ?_⟩
  · rintro rfl
    exact ⟨_, _, rfl, rfl, rfl, rfl, rfl⟩
  · intro s hs
    rw [hs]
    exact ⟨_, _, rfl, rfl, rfl, rfl, rfl⟩
  · intro c hc
    rw [hc]
    exact ⟨_, _, rfl, rfl, rfl, rfl, rfl⟩

/-- C6 counterexample: eyeColor = [{inner red, outer blue}, undefined,
undefined] (the only way to set a pair for eye 0 alone) makes eye 1
resolve to undefined, and drawPositioningPattern throws a TypeError
instead of drawing both rings in fgColor. -/
theorem c6_counterexample :
    drawPositioningPattern 1 0 0 14
        (resolveEyeColor
          (some (EyeColorProp.triple (some (EyeColor.mix ⟨"#FF0000", "#0000FF"⟩)) none none))
          "#000000" 1)
        (CornerRadii.num 0) =
      Except.error "TypeError: cannot read properties of undefined" ∧
    ∀ c1 c2,
      drawPositioningPattern 1 0 0 14
          (resolveEyeColor
            (some (EyeColorProp.triple (some (EyeColor.mix ⟨"#FF0000", "#0000FF"⟩)) none none))
            "#000000" 1)
          (CornerRadii.num 0) ≠
        Except.ok [c1, c2] := by
  have he : drawPositioningPattern 1 0 0 14
      (resolveEyeColor
        (some (EyeColorProp.triple (some (EyeColor.mix ⟨"#FF0000", "#0000FF"⟩)) none none))
        "#000000" 1)
      (CornerRadii.num 0) =
      Except.error "TypeError: cannot read properties of undefined" := rfl
  refine ⟨he, fun c1 c2 h => ?_⟩
  rw [he] at h
  exact Except.noConfusion h

/-- C6 witness: with eyeColor unset, eye 0 draws both rings in the
foreground color. -/
theorem c6_witness :
    ∃ c1 c2,
      drawPositioningPattern 1 0 0 0 (resolveEyeColor none "#1A2B3C" 0) (CornerRadii.num 0) =
        Except.ok [c1, c2] ∧
      c1.color = "#1A2B3C" ∧ c2.color = "#1A2B3C" ∧ c1.fill = false ∧ c2.fill = true :=
  (c6_eye_colors none "#1A2B3C" 0 1 0 0 0 (CornerRadii.num 0)).1 rfl

/-- C7 (confirmed): the synchronous paint (background fill, module
shapes, eye patterns) is the same for any two configurations that
differ only in the logo options; in particular isCoordinateInImage is
never consulted, so dark modules under the logo area are painted like
any others. -/
theorem c7_sync_paint_ignores_logo (p : IProps) (qr : QRData)
    (li : Option String) (lw lh lp : Option ℚ) (lo : ℚ) (lps : Option String)
    (rm ec ol : Bool) :
    updateSyncPaint
        { p with
          logoImage := li
          logoWidth := lw
          logoHeight := lh
          logoOpacity := lo
          logoPadding := lp
          logoPaddingStyle := lps
          removeQrCodeBehindLogo := rm
          enableCORS := ec
          logoOnLoad := ol } qr =
      updateSyncPaint p qr := rfl

/-- C8 (confirmed): when qrStyle is unset or any value other than the
eight named styles, every dark non-excluded cell is painted as a filled
rectangle at (round(col * cellSize) + offset, round(row * cellSize) +
offset) with extent ceil((i + 1) * cellSize) - floor(i * cellSize) per
axis. -/
theorem c8_default_squares (style : Option String) (qr : QRData) (cellSize offset : ℚ)
    (fg : String) (zones : List Coordinates) (row col : ℕ)
    (hstyle : ∀ s ∈ ["hearts", "stars", "diamonds", "octagons", "pentagons", "triangles",
      "dots", "fluid"], style ≠ some s)
    (hdark : qr.isDark row col = true)
    (hzone : isInPositioninZone (row : ℤ) (col : ℤ) zones = false) :
    moduleCellCmds style qr cellSize offset fg zones row col =
      [DrawCmd.setFillStyle fg,
       DrawCmd.fillRect (jsRound ((col : ℚ) * cellSize) + offset)
         (jsRound ((row : ℚ) * cellSize) + offset)
         (jsCeil (((col : ℚ) + 1) * cellSize) - jsFloor ((col : ℚ) * cellSize))
         (jsCeil (((row : ℚ) + 1) * cellSize) - jsFloor ((row : ℚ) * cellSize))] := by
  have h1 := hstyle "hearts" (by simp)
  have h2 := hstyle "stars" (by simp)
  have h3 := hstyle "diamonds" (by simp)
  have h4 := hstyle "octagons" (by simp)
  have h5 := hstyle "pentagons" (by simp)
  have h6 := hstyle "triangles" (by simp)
  have h7 := hstyle "dots" (by simp)
  have h8 := hstyle "fluid" (by simp)
  simp [moduleCellCmds, squaresCell, h1, h2, h3, h4, h5, h6, h7, h8, hdark, hzone]

/-- C8 witness: qrStyle unset at cell (10, 10) of the all-dark
version-1 grid with cellSize 1. -/
theorem c8_witness :
    (∀ s ∈ ["hearts", "stars", "diamonds", "octagons", "pentagons", "triangles", "dots",
      "fluid"], (none : Option String) ≠ some s) ∧
    (allDark 21).isDark 10 10 = true ∧
    isInPositioninZone ((10 : ℕ) : ℤ) ((10 : ℕ) : ℤ) (positioningZones 21) = false ∧
    moduleCellCmds none (allDark 21) 1 0 "#000000" (positioningZones 21) 10 10 =
      [DrawCmd.setFillStyle "#000000",
       DrawCmd.fillRect (jsRound (((10 : ℕ) : ℚ) * 1) + 0) (jsRound (((10 : ℕ) : ℚ) * 1) + 0)
         (jsCeil ((((10 : ℕ) : ℚ) + 1) * 1) - jsFloor (((10 : ℕ) : ℚ) * 1))
         (jsCeil ((((10 : ℕ) : ℚ) + 1) * 1) - jsFloor (((10 : ℕ) : ℚ) * 1))] :=
  ⟨by decide, rfl, by decide,
   c8_default_squares none (allDark 21) 1 0 "#000000" (positioningZones 21) 10 10
     (by decide) rfl (by decide)⟩

/-- C9 (confirmed): when a logo is configured, the onload handler draws
the image at the centered rect shifted by the quiet zone: dxLogo =
(size - dWidthLogo) / 2 and dyLogo = (size - dHeightLogo) / 2, with
dWidthLogo defaulting to 0.2 * size when logoWidth is unspecified and
dHeightLogo defaulting to dWidthLogo when logoHeight is unspecified. -/
theorem c9_logo_centered (p : IProps) :
    DrawCmd.drawImage (dxLogoOf p + p.quietZone) (dyLogoOf p + p.quietZone)
        (dWidthLogoOf p) (dHeightLogoOf p) ∈ logoOnloadCmds p ∧
    dxLogoOf p = (p.size - dWidthLogoOf p) / 2 ∧
    dyLogoOf p = (p.size - dHeightLogoOf p) / 2 ∧
    (p.logoWidth = none → dWidthLogoOf p = (2/10) * p.size) ∧
    (p.logoHeight = none → dHeightLogoOf p = dWidthLogoOf p) := by
  refine ⟨?_, rfl, rfl, ?_, ?_⟩
  · simp [logoOnloadCmds]
  · intro hw
    simp [dWidthLogoOf, jsNumProp, hw, mul_comm]
  · intro hh
    simp [dHeightLogoOf, jsNumProp, hh]

/-- Concrete props used to evaluate the logo geometry: size 150, quiet
zone 10, a logo image, no explicit logo dimensions. -/
def c9Props : IProps :=
  { size := 150, quietZone := 10, bgColor := "#FFFFFF", fgColor := "#000000",
    logoImage := some "logo.png", logoWidth := none, logoHeight := none, logoOpacity := 1,
    logoOnLoad := false, removeQrCodeBehindLogo := false, logoPadding := none,
    logoPaddingStyle := some "square", enableCORS := false, eyeRadius := none,
    eyeColor := none, qrStyle := none }

/-- C9 witness: default logo geometry at size 150, quiet zone 10: the
rect is 30 x 30 at (60, 60), drawn at (70, 70). -/
theorem c9_witness :
    (DrawCmd.drawImage (dxLogoOf c9Props + c9Props.quietZone)
        (dyLogoOf c9Props + c9Props.quietZone) (dWidthLogoOf c9Props)
        (dHeightLogoOf c9Props) ∈ logoOnloadCmds c9Props) ∧
    dWidthLogoOf c9Props = (2/10) * (150 : ℚ) ∧
    dHeightLogoOf c9Props = dWidthLogoOf c9Props :=
  ⟨(c9_logo_centered c9Props).1, (c9_logo_centered c9Props).2.2.2.1 rfl,
   (c9_logo_centered c9Props).2.2.2.2 rfl⟩

/-- C10 (confirmed): a logoWidth, logoHeight or logoPadding configured
as 0 behaves exactly as if omitted; with removeQrCodeBehindLogo unset
and logoPadding 0 no clearing region is emitted. -/
theorem c10_zero_logo_props_as_unset (p : IProps) :
    logoOnloadCmds { p with logoWidth := some 0 } =
      logoOnloadCmds { p with logoWidth := none } ∧
    logoOnloadCmds { p with logoHeight := some 0 } =
      logoOnloadCmds { p with logoHeight := none } ∧
    logoOnloadCmds { p with logoPadding := some 0 } =
      logoOnloadCmds { p with logoPadding := none } ∧
    dWidthLogoOf { p with logoWidth := some 0 } = (2/10) * p.size ∧
    dHeightLogoOf { p with logoHeight := some 0 } = dWidthLogoOf p ∧
    logoClearCmds { p with logoPadding := some 0, removeQrCodeBehindLogo := false } = [] := by
  refine ⟨rfl, rfl, rfl, ?_, ?_, ?_⟩
  · simp [dWidthLogoOf, jsNumProp, mul_comm]
  · simp [dHeightLogoOf, dWidthLogoOf, jsNumProp]
  · simp [logoClearCmds, jsNumProp]

end QRGen
